import Mathlib

/-!
Shallow embedding of the query-fanout-and-answer pipeline of the
knowledge-base-app repository.

Sources embedded here:
- `src/services/AstraDBVectorStoreService.js` (`similaritySearch`,
  `similaritySearchMultiple`),
- `src/services/AstraDBQueryService.js` (`generateAlternativeQuestions`,
  `queryAI`),
- the `POST /api/query/ask` route handler,
- the streaming event contract of `POST /api/query/ask-stream` (endpoint
  described in the README; its handler is not present in the sources, so it
  is modelled from the specification).

JavaScript values that flow through the pipeline (JSON-parsed model output,
request bodies) are modelled by the inductive `Js`.  Remote collaborators
(the vector index and the language model) are modelled as oracle parameters:
a run of the pipeline is a pure function of the oracles' behaviour, so
quantifying over the oracle parameters quantifies over every behaviour of
the collaborators.
-/

namespace KBApp

/-- A JavaScript value, as produced by `JSON.parse` or an HTTP body parser.
Numbers are modelled as integers (no claim computes with them). -/
inductive Js where
  | undef
  | null
  | bool (b : Bool)
  | num (n : Int)
  | str (s : String)
  | arr (xs : List Js)
  | obj (fields : List (String × Js))
deriving Repr

/-- A retrieved passage (a langchain `Document`): page content plus metadata,
the metadata modelled as an association list of string fields. -/
structure Passage where
  pageContent : String
  metadata : List (String × String)
deriving Repr, DecidableEq

/-- Behaviour of the underlying vector index (`this.vectorStore.similaritySearch`):
given the query value and the result count, either a ranked passage list or a
rejection message. -/
abbrev Oracle := Js → Nat → Except String (List Passage)

/-- Error text thrown by `AstraDBVectorStoreService.similaritySearch` when
`this.vectorStore` is still `null` (the index has never been populated). -/
def emptyStoreMsg : String :=
  "No documents have been stored in the collection yet. Please ingest some documents first."

/-- Wrapper text the service's catch block puts in front of every search error. -/
def searchFailMsg : String := "Astra DB search failed: "

/-- Embedding of `AstraDBVectorStoreService.similaritySearch` (lines 137-159).
The store parameter is `none` when no documents were ever stored
(`this.vectorStore === null`): in that case the method throws the
empty-store message, which its own catch block rewraps.  Any rejection of
the underlying index search is rewrapped the same way. -/
def similaritySearch (store : Option Oracle) (query : Js) (k : Nat) :
    Except String (List Passage) :=
  match store with
  | none => .error (searchFailMsg ++ emptyStoreMsg)
  | some oracle =>
    match oracle query k with
    | .ok results => .ok results
    | .error e => .error (searchFailMsg ++ e)

/-- The `Promise.all` of the per-query searches inside
`similaritySearchMultiple`: settles with the list of per-query result lists
in query order, or rejects as soon as any single search rejects. -/
def collectResults (store : Option Oracle) (k : Nat) : List Js → Except String (List (List Passage))
  | [] => .ok []
  | q :: qs =>
    match similaritySearch store q k, collectResults store k qs with
    | .ok r, .ok rs => .ok (r :: rs)
    | .error e, _ => .error e
    | .ok _, .error e => .error e

/-- Embedding of `AstraDBVectorStoreService.similaritySearchMultiple`
(lines 161-174): `Promise.all` over one `similaritySearch` per query,
then `results.flat()`; the catch block turns ANY rejection into `[]`.
There is no deduplication step. -/
def similaritySearchMultiple (store : Option Oracle) (queries : List Js) (k : Nat) :
    List Passage :=
  match collectResults store k queries with
  | .ok rss => rss.flatten
  | .error _ => []

/-- Constant `ALTERNATIVE_QUESTION_COUNT` of `AstraDBQueryService.js`: the
paraphrase count requested from the model.  It is interpolated into the
prompt only; nothing truncates the parsed model output to this length. -/
def ALTERNATIVE_QUESTION_COUNT : Nat := 3

/-- Constant `MAX_RELEVANT_DOCS_PER_QUESTION` of `AstraDBQueryService.js`. -/
def MAX_RELEVANT_DOCS_PER_QUESTION : Nat := 3

/-- Joint behaviour of `this.alternativeQuestionChain.invoke` and the
subsequent `JSON.parse`: `.error e` is a model-call rejection, `.ok none` is
a response on which `JSON.parse` throws, `.ok (some j)` is a response that
parses to the JSON value `j`. -/
abbrev AltChainBehaviour := Except String (Option Js)

/-- Embedding of `AstraDBQueryService.generateAlternativeQuestions`
(lines 69-85): returns the parsed response unchanged; the catch block turns
a model-call rejection or a `JSON.parse` exception into the empty array.
The `count` argument only shapes the prompt string, hence is absorbed into
the behaviour parameter. -/
def generateAlternativeQuestions (alt : AltChainBehaviour) : Js :=
  match alt with
  | .error _ => .arr []
  | .ok none => .arr []
  | .ok (some j) => j

/-- Message of the `TypeError` raised by the array spread
`[question, ...alternativeQuestions]` when the spread operand is not
iterable. -/
def notIterableMsg : String := "alternativeQuestions is not iterable"

/-- JavaScript array-spread semantics: arrays spread into their elements,
strings into their characters; every other value raises a `TypeError`. -/
def spreadElems : Js → Option (List Js)
  | .arr xs => some xs
  | .str s => some (s.data.map fun c => .str (String.mk [c]))
  | _ => none

/-- The `allQuestions` list of `queryAI`:
`[question, ...generateAlternativeQuestions(...)]`; `none` when the spread
raises a `TypeError`. -/
def expandedSet (alt : AltChainBehaviour) (question : String) : Option (List Js) :=
  (spreadElems (generateAlternativeQuestions alt)).map fun alts => .str question :: alts

/-- The candidate passage list `relevantDocs` that `queryAI` obtains from
`similaritySearchMultiple` on the expanded question set; `none` when the
spread raised before retrieval. -/
def candidateSet (store : Option Oracle) (alt : AltChainBehaviour) (question : String) :
    Option (List Passage) :=
  (expandedSet alt question).map fun qs =>
    similaritySearchMultiple store qs MAX_RELEVANT_DOCS_PER_QUESTION

/-- The fixed no-relevant-information answer of `queryAI`. -/
def noInfoMsg : String :=
  "I cannot find any relevant information in the knowledge base to answer your question."

/-- Wrapper text of `queryAI`'s catch block: `Query failed: ${error.message}`. -/
def queryFailMsg : String := "Query failed: "

/-- A source summary entry of the result's `sources` array. -/
structure Source where
  content : String
  metadata : List (String × String)
deriving Repr, DecidableEq

/-- Embedding of the per-passage source summary built by `queryAI`
(lines 134-137): `doc.pageContent.substring(0, 200) + "..."` plus the full
metadata.  The `"..."` suffix is appended unconditionally. -/
def sourceSummary (d : Passage) : Source :=
  { content := d.pageContent.take 200 ++ "...", metadata := d.metadata }

/-- The context string of `queryAI`:
`relevantDocs.map((doc) => doc.pageContent).join("\n\n")`. -/
def assembleContext (docs : List Passage) : String :=
  String.intercalate "\n\n" (docs.map fun d => d.pageContent)

/-- The result object of `queryAI`.  The `question` field is `Option`al
because the empty-candidate short-circuit return object has no `question`
key while the normal-path return object does. -/
structure AnswerResult where
  question : Option String
  answer : String
  sources : List Source
  processingTime : Nat
  documentsRetrieved : Nat
deriving Repr, DecidableEq

/-- Behaviour of the language model during one run: the
alternative-question chain's outcome and the answer chain's outcome as a
function of the interpolated context and question. -/
structure LLMEnv where
  altChain : AltChainBehaviour
  chain : String → String → Except String String

/-- Instrumentation of one run: how many `similaritySearch` calls, how many
alternative-question-chain invocations, and how many answer-chain
invocations were made. -/
structure RunStats where
  retrievalCalls : Nat
  altChainCalls : Nat
  answerChainCalls : Nat
deriving Repr, DecidableEq

/-- Embedding of `AstraDBQueryService.queryAI` (lines 93-152), instrumented
with call counts.  `elapsed` stands for the millisecond difference
`Date.now() - startTime` measured by the run (a monotone clock, hence a
natural number).  Control flow follows the source: expand (always one
alternative-chain call), spread into `allQuestions` (a non-iterable parsed
value raises a `TypeError`, caught and rewrapped by the outer catch),
retrieve via `similaritySearchMultiple` (one `similaritySearch` per
question), short-circuit on an empty candidate list without invoking the
answer chain, otherwise assemble the context, invoke the answer chain once
and build the sources list. -/
def queryAI (store : Option Oracle) (env : LLMEnv) (elapsed : Nat) (question : String) :
    Except String AnswerResult × RunStats :=
  match spreadElems (generateAlternativeQuestions env.altChain) with
  | none => (.error (queryFailMsg ++ notIterableMsg), ⟨0, 1, 0⟩)
  | some alts =>
    let allQuestions : List Js := .str question :: alts
    let relevantDocs :=
      similaritySearchMultiple store allQuestions MAX_RELEVANT_DOCS_PER_QUESTION
    if relevantDocs.length = 0 then
      (.ok { question := none, answer := noInfoMsg, sources := [],
             processingTime := elapsed, documentsRetrieved := 0 },
       ⟨allQuestions.length, 1, 0⟩)
    else
      match env.chain (assembleContext relevantDocs) question with
      | .error e => (.error (queryFailMsg ++ e), ⟨allQuestions.length, 1, 1⟩)
      | .ok response =>
        (.ok { question := some question, answer := response,
               sources := relevantDocs.map sourceSummary,
               processingTime := elapsed,
               documentsRetrieved := relevantDocs.length },
         ⟨allQuestions.length, 1, 1⟩)

/-- JavaScript truthiness of a `Js` value. -/
def jsTruthy : Js → Bool
  | .undef => false
  | .null => false
  | .bool b => b
  | .num n => decide (n ≠ 0)
  | .str s => decide (s ≠ "")
  | .arr _ => true
  | .obj _ => true

/-- Whether `typeof value === "string"`. -/
def jsIsString : Js → Bool
  | .str _ => true
  | _ => false

/-- HTTP outcome of the `/ask` route: 400 on validation failure, 200 with
the result, 500 with the error message. -/
inductive AskResponse where
  | badRequest
  | ok (r : AnswerResult)
  | serverError (msg : String)
deriving Repr, DecidableEq

/-- Embedding of the `router.post("/ask")` handler: rejects with 400 when
`!question || typeof question !== "string"`, before any service call;
otherwise runs `queryAI` and maps its outcome to 200/500.  The paired
`RunStats` instruments the run (all zero when validation rejects). -/
def askRoute (store : Option Oracle) (env : LLMEnv) (elapsed : Nat) (question : Js) :
    AskResponse × RunStats :=
  if jsTruthy question && jsIsString question then
    match question with
    | .str s =>
      match queryAI store env elapsed s with
      | (.ok r, st) => (.ok r, st)
      | (.error e, st) => (.serverError e, st)
    | _ => (.badRequest, ⟨0, 0, 0⟩)
  else (.badRequest, ⟨0, 0, 0⟩)

/-- One server-sent event of the streaming endpoint. -/
inductive StreamEvent where
  | connected
  | content (fragment : String)
  | complete
  | error (msg : String)
deriving Repr, DecidableEq

/-- Whether an event is terminal (`complete` or `error`). -/
def isTerminal : StreamEvent → Bool
  | .complete => true
  | .error _ => true
  | _ => false

/-- Whether an event is a content fragment. -/
def isContent : StreamEvent → Bool
  | .content _ => true
  | _ => false

/-- Modelled from the spec: the handler of `POST /api/query/ask-stream` is
described in the README and the specification but absent from the sources.
Per the StreamEvent contract it emits one `connected` event, forwards each
generated answer fragment as a `content` event in generation order, and
closes with exactly one terminal event: `complete` when generation
succeeded, `error` with the failure message otherwise, with no writes after
the terminal event.  `fragments` are the fragments delivered before the run
settled with `outcome`. -/
def streamRun (fragments : List String) (outcome : Except String Unit) : List StreamEvent :=
  StreamEvent.connected ::
    (fragments.map StreamEvent.content ++
      [match outcome with
       | .ok _ => StreamEvent.complete
       | .error e => StreamEvent.error e])

/-! Helper lemmas about the fan-out aggregation. -/

/-- When every per-query search succeeds, the `Promise.all` settles with the
per-query result lists in query order. -/
theorem collectResults_ok (store : Option Oracle) (k : Nat) (f : Js → List Passage) :
    ∀ qs : List Js, (∀ q ∈ qs, similaritySearch store q k = .ok (f q)) →
      collectResults store k qs = .ok (qs.map f) := by
  intro qs
  induction qs with
  | nil => intro _; rfl
  | cons q0 rest ih =>
    intro h
    have h0 : similaritySearch store q0 k = .ok (f q0) := h q0 (List.mem_cons_self ..)
    have hrest : collectResults store k rest = .ok (rest.map f) :=
      ih fun q hq => h q (List.mem_cons_of_mem _ hq)
    simp only [collectResults, h0, hrest, List.map_cons]

/-- When some per-query search rejects, the `Promise.all` rejects. -/
theorem collectResults_error (store : Option Oracle) (k : Nat) :
    ∀ qs : List Js, (∃ q ∈ qs, ∃ e, similaritySearch store q k = .error e) →
      ∃ e, collectResults store k qs = .error e := by
  intro qs
  induction qs with
  | nil => rintro ⟨q, hq, _⟩; cases hq
  | cons q0 rest ih =>
    rintro ⟨q, hq, e, he⟩
    rcases List.mem_cons.mp hq with h | h
    · subst h
      refine ⟨e, ?_⟩
      simp only [collectResults, he]
    · obtain ⟨e', he'⟩ := ih ⟨q, h, e, he⟩
      cases h0 : similaritySearch store q0 k with
      | ok r => exact ⟨e', by simp only [collectResults, h0, he']⟩
      | error e0 => exact ⟨e0, by simp only [collectResults, h0]⟩

/-- A concrete index behaviour that ranks the same passage for every query:
used to exhibit duplicate retrieval across two expanded queries. -/
def dupOracle : Oracle := fun _ _ => .ok [⟨"p", []⟩]

/-- C2 counterexample: two expanded queries each retrieve the same passage
(same content, same metadata), yet the merged candidate set returned by
`similaritySearchMultiple` contains that passage twice, not exactly once —
the flatten step performs no deduplication. -/
theorem c2_counterexample :
    similaritySearchMultiple (some dupOracle) [.str "a", .str "b"]
        MAX_RELEVANT_DOCS_PER_QUESTION = [⟨"p", []⟩, ⟨"p", []⟩]
    ∧ (similaritySearchMultiple (some dupOracle) [.str "a", .str "b"]
        MAX_RELEVANT_DOCS_PER_QUESTION).count ⟨"p", []⟩ ≠ 1 := by
  constructor
  · rfl
  · decide

/-- C2 amended: when every per-query search succeeds, multi-query retrieval
returns the plain concatenation of the per-query result lists in query
order — duplicates retrieved under different queries are all kept, and no
content-plus-metadata merging takes place. -/
theorem c2_flatten_no_dedup (store : Option Oracle) (k : Nat) (queries : List Js)
    (f : Js → List Passage)
    (h : ∀ q ∈ queries, similaritySearch store q k = .ok (f q)) :
    similaritySearchMultiple store queries k = (queries.map f).flatten := by
  simp only [similaritySearchMultiple, collectResults_ok store k f queries h]

/-- C2 amended witness at a concrete input. -/
theorem c2_witness :
    similaritySearchMultiple (some dupOracle) [.str "a"] 3
      = ([[⟨"p", []⟩]] : List (List Passage)).flatten := by
  have h : ∀ q ∈ ([.str "a"] : List Js),
      similaritySearch (some dupOracle) q 3 = .ok [⟨"p", []⟩] := by
    intro q hq
    rfl
  simpa using c2_flatten_no_dedup (some dupOracle) 3 [.str "a"] (fun _ => [⟨"p", []⟩]) h

/-- A concrete index behaviour that succeeds on query "a" with one passage
and rejects every other query: a single failing sub-call among succeeding
ones. -/
def oneFailOracle : Oracle := fun q _ =>
  match q with
  | .str "a" => .ok [⟨"p", []⟩]
  | _ => .error "boom"

/-- C3 counterexample: with one failing and one succeeding per-query search,
the batch returns the empty list — the succeeding query's passage is NOT
still returned, and the aggregate is empty without total failure. -/
theorem c3_counterexample :
    similaritySearch (some oneFailOracle) (.str "a") MAX_RELEVANT_DOCS_PER_QUESTION
      = .ok [⟨"p", []⟩]
    ∧ similaritySearch (some oneFailOracle) (.str "b") MAX_RELEVANT_DOCS_PER_QUESTION
      = .error (searchFailMsg ++ "boom")
    ∧ similaritySearchMultiple (some oneFailOracle) [.str "a", .str "b"]
        MAX_RELEVANT_DOCS_PER_QUESTION = [] :=
  ⟨rfl, rfl, rfl⟩

/-- C3 amended: a failure of any single per-query search (not only total
failure) makes the whole batch return the empty candidate set; the
contributions of the succeeding queries are discarded, and the pipeline
continues with that empty set. -/
theorem c3_any_failure_empties_batch (store : Option Oracle) (k : Nat)
    (queries : List Js)
    (h : ∃ q ∈ queries, ∃ e, similaritySearch store q k = .error e) :
    similaritySearchMultiple store queries k = [] := by
  obtain ⟨e, he⟩ := collectResults_error store k queries h
  simp only [similaritySearchMultiple, he]

/-- C3 amended witness at a concrete input. -/
theorem c3_witness :
    similaritySearchMultiple (some oneFailOracle) [.str "a", .str "b"] 3 = [] :=
  c3_any_failure_empties_batch (some oneFailOracle) 3 [.str "a", .str "b"]
    ⟨.str "b", by simp, searchFailMsg ++ "boom", rfl⟩

/-- A language-model behaviour whose calls all fail. -/
def envDown : LLMEnv := ⟨.error "model down", fun _ _ => .error "model down"⟩

/-- A language-model behaviour whose alternative-question response parses to
the JSON number 5 (JSON.parse accepts any top-level JSON value). -/
def envNum : LLMEnv := ⟨.ok (some (.num 5)), fun _ _ => .error "model down"⟩

/-- C4 counterexample: with a parseable model output that is not an array
(the JSON number 5), `generateAlternativeQuestions` returns it unchanged and
the array spread in `queryAI` raises a `TypeError`, so the whole pipeline
run fails — contradicting that expansion behaviour never fails the
pipeline for any parseable output. -/
theorem c4_counterexample :
    generateAlternativeQuestions envNum.altChain = .num 5
    ∧ (queryAI none envNum 0 "q").1 = .error (queryFailMsg ++ notIterableMsg) :=
  ⟨rfl, rfl⟩

/-- Helper: the number of retrieval calls of a run whose spread succeeded is
the length of the expanded question list. -/
theorem queryAI_retrievalCalls (store : Option Oracle) (env : LLMEnv) (t : Nat)
    (q : String) (alts : List Js)
    (h : spreadElems (generateAlternativeQuestions env.altChain) = some alts) :
    (queryAI store env t q).2.retrievalCalls = alts.length + 1 := by
  unfold queryAI
  rw [h]
  dsimp only
  split
  · rfl
  · split <;> rfl

/-- C4 amended: on a model-call failure or an unparseable response, expand
returns the empty array, the pipeline does not fail there, and it proceeds
with the expanded question set degraded to exactly the original question
(one retrieval call is issued, for the original question); but a parseable
non-iterable response makes the spread raise and fails the whole run. -/
theorem c4_failure_degrades_to_original (store : Option Oracle) (env : LLMEnv)
    (t : Nat) (q : String)
    (h : (∃ e, env.altChain = .error e) ∨ env.altChain = .ok none) :
    generateAlternativeQuestions env.altChain = .arr []
    ∧ expandedSet env.altChain q = some [.str q]
    ∧ (queryAI store env t q).2.retrievalCalls = 1 := by
  have hg : generateAlternativeQuestions env.altChain = .arr [] := by
    rcases h with ⟨e, he⟩ | he <;> simp [generateAlternativeQuestions, he]
  have hs : spreadElems (generateAlternativeQuestions env.altChain) = some [] := by
    rw [hg]; rfl
  refine ⟨hg, ?_, ?_⟩
  · simp [expandedSet, hs]
  · simpa using queryAI_retrievalCalls store env t q [] hs

/-- C4 amended witness at a concrete input. -/
theorem c4_witness :
    generateAlternativeQuestions envDown.altChain = .arr []
    ∧ expandedSet envDown.altChain "w" = some [.str "w"]
    ∧ (queryAI none envDown 0 "w").2.retrievalCalls = 1 :=
  c4_failure_degrades_to_original none envDown 0 "w" (.inl ⟨"model down", rfl⟩)

/-! Characterization of the three exit paths of `queryAI` once the spread
succeeded. -/

/-- When the candidate list is empty, `queryAI` short-circuits to the fixed
no-information result without invoking the answer chain. -/
theorem queryAI_empty (store : Option Oracle) (env : LLMEnv) (t : Nat) (q : String)
    (alts : List Js)
    (hsp : spreadElems (generateAlternativeQuestions env.altChain) = some alts)
    (hdocs : similaritySearchMultiple store (.str q :: alts)
        MAX_RELEVANT_DOCS_PER_QUESTION = []) :
    queryAI store env t q
      = (.ok ⟨none, noInfoMsg, [], t, 0⟩, ⟨alts.length + 1, 1, 0⟩) := by
  unfold queryAI
  rw [hsp]
  dsimp only
  rw [hdocs]
  rfl

/-- When the candidate list is non-empty and the answer chain succeeds,
`queryAI` returns the normal-path result. -/
theorem queryAI_ok (store : Option Oracle) (env : LLMEnv) (t : Nat) (q : String)
    (alts : List Js) (resp : String)
    (hsp : spreadElems (generateAlternativeQuestions env.altChain) = some alts)
    (hdocs : similaritySearchMultiple store (.str q :: alts)
        MAX_RELEVANT_DOCS_PER_QUESTION ≠ [])
    (hchain : env.chain
        (assembleContext (similaritySearchMultiple store (.str q :: alts)
          MAX_RELEVANT_DOCS_PER_QUESTION)) q = .ok resp) :
    queryAI store env t q
      = (.ok ⟨some q, resp,
            (similaritySearchMultiple store (.str q :: alts)
              MAX_RELEVANT_DOCS_PER_QUESTION).map sourceSummary, t,
            (similaritySearchMultiple store (.str q :: alts)
              MAX_RELEVANT_DOCS_PER_QUESTION).length⟩,
         ⟨alts.length + 1, 1, 1⟩) := by
  unfold queryAI
  rw [hsp]
  dsimp only
  rw [if_neg (fun h => hdocs (List.length_eq_zero.mp h)), hchain]
  rfl

/-- When the candidate list is non-empty and the answer chain rejects,
`queryAI` rethrows the wrapped failure. -/
theorem queryAI_chain_error (store : Option Oracle) (env : LLMEnv) (t : Nat)
    (q : String) (alts : List Js) (e : String)
    (hsp : spreadElems (generateAlternativeQuestions env.altChain) = some alts)
    (hdocs : similaritySearchMultiple store (.str q :: alts)
        MAX_RELEVANT_DOCS_PER_QUESTION ≠ [])
    (hchain : env.chain
        (assembleContext (similaritySearchMultiple store (.str q :: alts)
          MAX_RELEVANT_DOCS_PER_QUESTION)) q = .error e) :
    queryAI store env t q
      = (.error (queryFailMsg ++ e), ⟨alts.length + 1, 1, 1⟩) := by
  unfold queryAI
  rw [hsp]
  dsimp only
  rw [if_neg (fun h => hdocs (List.length_eq_zero.mp h)), hchain]
  rfl

/-- An index behaviour that returns zero matches for every query. -/
def emptyOracle : Oracle := fun _ _ => .ok []

/-- C5 counterexample: a never-populated store (`none`) and a populated
store with zero matches produce the very same successful pipeline result —
the fixed no-relevant-information answer — so the pipeline does NOT surface
the empty-store precondition failure distinctly from the zero-matches
case. -/
theorem c5_counterexample :
    (queryAI none envDown 0 "q").1 = .ok ⟨none, noInfoMsg, [], 0, 0⟩
    ∧ (queryAI (some emptyOracle) envDown 0 "q").1 = .ok ⟨none, noInfoMsg, [], 0, 0⟩ :=
  ⟨rfl, rfl⟩

/-- C5 amended: `similaritySearch` does reject with the no-documents-stored
message when the index has never been populated, but
`similaritySearchMultiple` swallows that rejection into an empty candidate
set, so the pipeline returns the ordinary fixed no-relevant-information
result instead of surfacing the condition. -/
theorem c5_empty_store_swallowed (env : LLMEnv) (t : Nat) (q : String) (k : Nat)
    (query : Js) (alts : List Js)
    (hsp : spreadElems (generateAlternativeQuestions env.altChain) = some alts) :
    similaritySearch none query k = .error (searchFailMsg ++ emptyStoreMsg)
    ∧ (queryAI none env t q).1 = .ok ⟨none, noInfoMsg, [], t, 0⟩ := by
  refine ⟨rfl, ?_⟩
  obtain ⟨e, he⟩ := collectResults_error none MAX_RELEVANT_DOCS_PER_QUESTION
    (.str q :: alts)
    ⟨.str q, List.mem_cons_self _ _, searchFailMsg ++ emptyStoreMsg, rfl⟩
  have hdocs : similaritySearchMultiple none (.str q :: alts)
      MAX_RELEVANT_DOCS_PER_QUESTION = [] := by
    simp only [similaritySearchMultiple, he]
  rw [queryAI_empty none env t q alts hsp hdocs]

/-- C5 amended witness at a concrete input. -/
theorem c5_witness :
    similaritySearch none (.str "w") 4 = .error (searchFailMsg ++ emptyStoreMsg)
    ∧ (queryAI none envDown 7 "w").1 = .ok ⟨none, noInfoMsg, [], 7, 0⟩ :=
  c5_empty_store_swallowed envDown 7 "w" 4 (.str "w") [] rfl

/-- C1: for every accepted question, a successfully returned result has
`documentsRetrieved = 0` exactly when the candidate passage set produced by
retrieval is empty, and in that case the answer is the fixed
no-relevant-information message, the sources list is empty, and the answer
chain of the language model is never invoked. -/
theorem c1_empty_candidates_shortcircuit (store : Option Oracle) (env : LLMEnv)
    (t : Nat) (q : String) (cs : List Passage)
    (hcs : candidateSet store env.altChain q = some cs)
    (r : AnswerResult) (hr : (queryAI store env t q).1 = .ok r) :
    (r.documentsRetrieved = 0 ↔ cs = [])
    ∧ (cs = [] → r.answer = noInfoMsg ∧ r.sources = []
        ∧ (queryAI store env t q).2.answerChainCalls = 0) := by
  rcases hsp : spreadElems (generateAlternativeQuestions env.altChain) with _ | alts
  · simp [candidateSet, expandedSet, hsp] at hcs
  · have hcs' : cs = similaritySearchMultiple store (.str q :: alts)
        MAX_RELEVANT_DOCS_PER_QUESTION := by
      simp only [candidateSet, expandedSet, hsp, Option.map_some', Option.some.injEq] at hcs
      exact hcs.symm
    by_cases hdocs : similaritySearchMultiple store (.str q :: alts)
        MAX_RELEVANT_DOCS_PER_QUESTION = []
    · rw [queryAI_empty store env t q alts hsp hdocs] at hr ⊢
      have hreq : AnswerResult.mk none noInfoMsg [] t 0 = r := Except.ok.inj hr
      subst hreq
      exact ⟨iff_of_true rfl (hcs'.trans hdocs), fun _ => ⟨rfl, rfl, rfl⟩⟩
    · cases hchain : env.chain (assembleContext (similaritySearchMultiple store
          (.str q :: alts) MAX_RELEVANT_DOCS_PER_QUESTION)) q with
      | error e =>
        rw [queryAI_chain_error store env t q alts e hsp hdocs hchain] at hr
        simp at hr
      | ok resp =>
        rw [queryAI_ok store env t q alts resp hsp hdocs hchain] at hr ⊢
        have hreq : AnswerResult.mk (some q) resp
            ((similaritySearchMultiple store (.str q :: alts)
              MAX_RELEVANT_DOCS_PER_QUESTION).map sourceSummary) t
            ((similaritySearchMultiple store (.str q :: alts)
              MAX_RELEVANT_DOCS_PER_QUESTION).length) = r := Except.ok.inj hr
        subst hreq
        refine ⟨iff_of_false (fun h => hdocs (List.length_eq_zero.mp h)) ?_, ?_⟩
        · rw [hcs'] at *
          exact hdocs
        · exact fun hc => absurd (hcs'.symm.trans hc) hdocs

/-- C1 witness at a concrete input: a never-populated store yields the empty
candidate set and the short-circuit result. -/
theorem c1_witness :
    ((AnswerResult.mk none noInfoMsg [] 0 0).documentsRetrieved = 0
        ↔ ([] : List Passage) = [])
    ∧ (([] : List Passage) = [] →
        (AnswerResult.mk none noInfoMsg [] 0 0).answer = noInfoMsg
        ∧ (AnswerResult.mk none noInfoMsg [] 0 0).sources = []
        ∧ (queryAI none envDown 0 "w").2.answerChainCalls = 0) :=
  c1_empty_candidates_shortcircuit none envDown 0 "w" [] rfl
    (AnswerResult.mk none noInfoMsg [] 0 0) rfl

/-- A language-model behaviour whose expansion call fails and whose answer
chain succeeds with a fixed answer. -/
def envOk : LLMEnv := ⟨.error "model down", fun _ _ => .ok "ANSWER"⟩

/-- An index behaviour that ranks one three-character passage for every
query. -/
def shortOracle : Oracle := fun _ _ => .ok [⟨"abc", [("source", "s")]⟩]

set_option maxRecDepth 4000 in
/-- C7 counterexample: for a passage whose content "abc" is not longer than
200 characters, the source summary still carries the "..." suffix — the
suffix is appended unconditionally, not only when the content exceeds 200
characters. -/
theorem c7_counterexample :
    (queryAI (some shortOracle) envOk 0 "q").1
      = .ok ⟨some "q", "ANSWER", [⟨"abc...", [("source", "s")]⟩], 0, 1⟩
    ∧ ("abc" : String).length ≤ 200 :=
  ⟨rfl, by decide⟩

/-- C7 amended: for every retrieved passage, the source summary consists of
the first 200 characters of the content with the "..." suffix appended
unconditionally (also when the content is 200 characters or shorter),
together with the passage's full metadata, in the same order as the
passages appear in the joined context. -/
theorem c7_sources_are_truncated_passages (store : Option Oracle) (env : LLMEnv)
    (t : Nat) (q : String) (cs : List Passage)
    (hcs : candidateSet store env.altChain q = some cs)
    (r : AnswerResult) (hr : (queryAI store env t q).1 = .ok r)
    (hne : cs ≠ []) :
    r.sources = cs.map sourceSummary
    ∧ ∀ d ∈ cs, (sourceSummary d).content = d.pageContent.take 200 ++ "..."
      ∧ (sourceSummary d).metadata = d.metadata := by
  rcases hsp : spreadElems (generateAlternativeQuestions env.altChain) with _ | alts
  · simp [candidateSet, expandedSet, hsp] at hcs
  · have hcs' : cs = similaritySearchMultiple store (.str q :: alts)
        MAX_RELEVANT_DOCS_PER_QUESTION := by
      simp only [candidateSet, expandedSet, hsp, Option.map_some', Option.some.injEq] at hcs
      exact hcs.symm
    have hdocs : similaritySearchMultiple store (.str q :: alts)
        MAX_RELEVANT_DOCS_PER_QUESTION ≠ [] := hcs' ▸ hne
    cases hchain : env.chain (assembleContext (similaritySearchMultiple store
        (.str q :: alts) MAX_RELEVANT_DOCS_PER_QUESTION)) q with
    | error e =>
      rw [queryAI_chain_error store env t q alts e hsp hdocs hchain] at hr
      simp at hr
    | ok resp =>
      rw [queryAI_ok store env t q alts resp hsp hdocs hchain] at hr
      have hreq : AnswerResult.mk (some q) resp
          ((similaritySearchMultiple store (.str q :: alts)
            MAX_RELEVANT_DOCS_PER_QUESTION).map sourceSummary) t
          ((similaritySearchMultiple store (.str q :: alts)
            MAX_RELEVANT_DOCS_PER_QUESTION).length) = r := Except.ok.inj hr
      subst hreq
      exact ⟨by rw [hcs'], fun d _ => ⟨rfl, rfl⟩⟩

/-- C7 amended witness at a concrete input. -/
theorem c7_witness :
    (AnswerResult.mk (some "q") "ANSWER"
        (([⟨"abc", [("source", "s")]⟩] : List Passage).map sourceSummary) 0 1).sources
      = ([⟨"abc", [("source", "s")]⟩] : List Passage).map sourceSummary
    ∧ ∀ d ∈ ([⟨"abc", [("source", "s")]⟩] : List Passage),
        (sourceSummary d).content = d.pageContent.take 200 ++ "..."
        ∧ (sourceSummary d).metadata = d.metadata :=
  c7_sources_are_truncated_passages (some shortOracle) envOk 0 "q"
    [⟨"abc", [("source", "s")]⟩] rfl
    (AnswerResult.mk (some "q") "ANSWER"
      (([⟨"abc", [("source", "s")]⟩] : List Passage).map sourceSummary) 0 1) rfl
    (List.cons_ne_nil _ _)

/-- A language-model behaviour whose expansion response parses to an array
of four paraphrases although the prompt asked for three. -/
def envFour : LLMEnv :=
  ⟨.ok (some (.arr [.str "a", .str "b", .str "c", .str "d"])), fun _ _ => .ok "ANSWER"⟩

/-- C8 counterexample: nothing truncates the parsed expansion to the
configured count, so a model response with four paraphrases makes expand
return four entries (more than `ALTERNATIVE_QUESTION_COUNT = 3`) and the
downstream question set has five entries, above the claimed bound
`1 + count`. -/
theorem c8_counterexample :
    generateAlternativeQuestions envFour.altChain
      = .arr [.str "a", .str "b", .str "c", .str "d"]
    ∧ ¬(([.str "a", .str "b", .str "c", .str "d"] : List Js).length
        ≤ ALTERNATIVE_QUESTION_COUNT)
    ∧ expandedSet envFour.altChain "q"
      = some [.str "q", .str "a", .str "b", .str "c", .str "d"]
    ∧ ¬(([.str "q", .str "a", .str "b", .str "c", .str "d"] : List Js).length
        ≤ 1 + ALTERNATIVE_QUESTION_COUNT) :=
  ⟨rfl, by decide, rfl, by decide⟩

/-- C8 amended: whenever the parsed expansion is an array `xs`, the
downstream question set is the original question followed by all of `xs`
(so exactly `1 + len(xs)` retrieval queries are issued, with no upper bound
enforced by the configured count), and on any expansion error the parsed
expansion is the empty array, so the set has size exactly 1. -/
theorem c8_expansion_size (store : Option Oracle) (env : LLMEnv) (t : Nat)
    (q : String) (xs : List Js)
    (h : generateAlternativeQuestions env.altChain = .arr xs) :
    expandedSet env.altChain q = some (.str q :: xs)
    ∧ (queryAI store env t q).2.retrievalCalls = xs.length + 1
    ∧ (∀ e, env.altChain = .error e → xs = [])
    ∧ (env.altChain = .ok none → xs = []) := by
  have hs : spreadElems (generateAlternativeQuestions env.altChain) = some xs := by
    rw [h]; rfl
  refine ⟨?_, ?_, ?_, ?_⟩
  · simp [expandedSet, hs]
  · exact queryAI_retrievalCalls store env t q xs hs
  · intro e he
    rw [he] at h
    simp only [generateAlternativeQuestions] at h
    exact (Js.arr.inj h).symm
  · intro he
    rw [he] at h
    simp only [generateAlternativeQuestions] at h
    exact (Js.arr.inj h).symm

/-- C8 amended witness at a concrete input. -/
theorem c8_witness :
    expandedSet envFour.altChain "q"
      = some (.str "q" :: [.str "a", .str "b", .str "c", .str "d"])
    ∧ (queryAI none envFour 0 "q").2.retrievalCalls
      = ([.str "a", .str "b", .str "c", .str "d"] : List Js).length + 1
    ∧ (∀ e, envFour.altChain = .error e
        → ([.str "a", .str "b", .str "c", .str "d"] : List Js) = [])
    ∧ (envFour.altChain = .ok none
        → ([.str "a", .str "b", .str "c", .str "d"] : List Js) = []) :=
  c8_expansion_size none envFour 0 "q" [.str "a", .str "b", .str "c", .str "d"] rfl

/-- C9 counterexample: the empty-candidate short-circuit return object has
no `question` key (modelled as `none`), so not every successfully returned
result contains the question field. -/
theorem c9_counterexample :
    (queryAI (some emptyOracle) envDown 5 "q").1 = .ok ⟨none, noInfoMsg, [], 5, 0⟩
    ∧ (AnswerResult.mk none noInfoMsg [] 5 0).question = none :=
  ⟨rfl, rfl⟩

/-- C9 amended: every successfully returned result carries the measured
processing time (a natural number, hence nonnegative), a documentsRetrieved
count equal to the length of the ordered sources list (hence nonnegative),
and the question field on the normal path — but the empty-candidate
short-circuit result omits the question field.  Results are plain values,
never mutated after construction. -/
theorem c9_result_fields (store : Option Oracle) (env : LLMEnv) (t : Nat)
    (q : String) (r : AnswerResult)
    (hr : (queryAI store env t q).1 = .ok r) :
    r.processingTime = t
    ∧ r.sources.length = r.documentsRetrieved
    ∧ (r.documentsRetrieved = 0 → r.question = none ∧ r.answer = noInfoMsg ∧ r.sources = [])
    ∧ (r.documentsRetrieved ≠ 0 → r.question = some q) := by
  rcases hsp : spreadElems (generateAlternativeQuestions env.altChain) with _ | alts
  · unfold queryAI at hr
    rw [hsp] at hr
    simp at hr
  · by_cases hdocs : similaritySearchMultiple store (.str q :: alts)
        MAX_RELEVANT_DOCS_PER_QUESTION = []
    · rw [queryAI_empty store env t q alts hsp hdocs] at hr
      have hreq : AnswerResult.mk none noInfoMsg [] t 0 = r := Except.ok.inj hr
      subst hreq
      exact ⟨rfl, rfl, fun _ => ⟨rfl, rfl, rfl⟩, fun h => absurd rfl h⟩
    · cases hchain : env.chain (assembleContext (similaritySearchMultiple store
          (.str q :: alts) MAX_RELEVANT_DOCS_PER_QUESTION)) q with
      | error e =>
        rw [queryAI_chain_error store env t q alts e hsp hdocs hchain] at hr
        simp at hr
      | ok resp =>
        rw [queryAI_ok store env t q alts resp hsp hdocs hchain] at hr
        have hreq : AnswerResult.mk (some q) resp
            ((similaritySearchMultiple store (.str q :: alts)
              MAX_RELEVANT_DOCS_PER_QUESTION).map sourceSummary) t
            ((similaritySearchMultiple store (.str q :: alts)
              MAX_RELEVANT_DOCS_PER_QUESTION).length) = r := Except.ok.inj hr
        subst hreq
        refine ⟨rfl, by simp, ?_, fun _ => rfl⟩
        intro h
        exact absurd (List.length_eq_zero.mp h) hdocs

/-- C9 amended witness at a concrete input. -/
theorem c9_witness :
    (AnswerResult.mk none noInfoMsg [] 3 0).processingTime = 3
    ∧ (AnswerResult.mk none noInfoMsg [] 3 0).sources.length
      = (AnswerResult.mk none noInfoMsg [] 3 0).documentsRetrieved
    ∧ ((AnswerResult.mk none noInfoMsg [] 3 0).documentsRetrieved = 0 →
        (AnswerResult.mk none noInfoMsg [] 3 0).question = none
        ∧ (AnswerResult.mk none noInfoMsg [] 3 0).answer = noInfoMsg
        ∧ (AnswerResult.mk none noInfoMsg [] 3 0).sources = [])
    ∧ ((AnswerResult.mk none noInfoMsg [] 3 0).documentsRetrieved ≠ 0 →
        (AnswerResult.mk none noInfoMsg [] 3 0).question = some "w") :=
  c9_result_fields none envDown 3 "w" (AnswerResult.mk none noInfoMsg [] 3 0) rfl

/-- C6: every request whose question is the empty string or not a string is
rejected with the 400 validation response before any service work: zero
retrieval calls and zero language-model calls of either chain. -/
theorem c6_validation_rejects_before_io (store : Option Oracle) (env : LLMEnv)
    (t : Nat) (body : Js)
    (h : body = .str "" ∨ jsIsString body = false) :
    askRoute store env t body = (.badRequest, ⟨0, 0, 0⟩) := by
  rcases h with h | h
  · subst h; rfl
  · simp [askRoute, h]

/-- C6 witness at a concrete input: the empty-string question. -/
theorem c6_witness :
    askRoute none envDown 0 (.str "") = (.badRequest, ⟨0, 0, 0⟩) :=
  c6_validation_rejects_before_io none envDown 0 (.str "") (.inl rfl)

/-- C10: every emitted event sequence of a streaming run starts with exactly
one connected event, ends with exactly one terminal event (complete or
error), every event strictly between them is a content event, and no event
follows the terminal event (the terminal is the single terminal occurrence
and it is last). -/
theorem c10_stream_event_order (frags : List String) (outcome : Except String Unit) :
    (streamRun frags outcome).head? = some .connected
    ∧ (streamRun frags outcome).count .connected = 1
    ∧ (∃ tl, isTerminal tl = true ∧ (streamRun frags outcome).getLast? = some tl)
    ∧ (streamRun frags outcome).countP (fun e => isTerminal e) = 1
    ∧ ∀ e ∈ ((streamRun frags outcome).drop 1).dropLast, isContent e = true := by
  obtain ⟨term, hterm, hterm_conn, hterm_term⟩ :
      ∃ tl, streamRun frags outcome
          = .connected :: (frags.map StreamEvent.content ++ [tl])
        ∧ tl ≠ .connected ∧ isTerminal tl = true := by
    cases outcome with
    | ok _ => exact ⟨.complete, rfl, by simp, rfl⟩
    | error e => exact ⟨.error e, rfl, by simp, rfl⟩
  have hmap_count : (frags.map StreamEvent.content).count StreamEvent.connected = 0 := by
    rw [List.count_eq_zero]
    intro hmem
    obtain ⟨s, _, hs⟩ := List.mem_map.mp hmem
    cases hs
  have hmap_countP : (frags.map StreamEvent.content).countP (fun e => isTerminal e) = 0 := by
    rw [List.countP_eq_zero]
    intro e he
    obtain ⟨s, _, hs⟩ := List.mem_map.mp he
    subst hs
    simp [isTerminal]
  refine ⟨?_, ?_, ?_, ?_, ?_⟩
  · rw [hterm]; rfl
  · rw [hterm]
    simp [List.count_cons, List.count_append, hmap_count, List.count_singleton,
      Ne.symm hterm_conn]
  · refine ⟨term, hterm_term, ?_⟩
    rw [hterm, show StreamEvent.connected :: (frags.map StreamEvent.content ++ [term])
        = (StreamEvent.connected :: frags.map StreamEvent.content) ++ [term] from rfl]
    exact List.getLast?_concat _
  · rw [hterm]
    simp only [List.countP_cons, List.countP_append, List.countP_nil, hmap_countP,
      hterm_term]
    simp [isTerminal]
  · intro e he
    rw [hterm] at he
    simp only [List.drop_one, List.tail_cons] at he
    rw [List.dropLast_concat] at he
    obtain ⟨s, _, hs⟩ := List.mem_map.mp he
    subst hs
    rfl

end KBApp
